import Mathlib

/-!
Verification of the character animation/control state machine, locomotion
update and follow-camera controller of the kung-fu-chess repository
(`src/App.jsx`, with `ChessboardFloor.jsx` as the only other source file).

The animation state machine ("animation switching logic" effect in the
`Model` component) is embedded as a pure transition function on a record
of the boolean refs it mutates (`attackRequested`, `attackInProgress`,
`emoteRequested`, `emoteInProgress`, `currentAction`,
`triggerAnimationEffect`), parametrised by which canonical clips are bound
(`actions[IDLE_ANIM_NAME]` etc. being non-null) and by the `isMoving`
state.  Side effects on the three.js mixer (fadeOut, reset/play,
listener registration) are recorded as an effect list.

The `useFrame` movement update and the FollowCamera are embedded over the
real numbers, with three.js vector operations (`normalize`, `lerp`) and
`Math.atan2` spelled out.
-/

namespace KungFuChess

/-- Canonical animation roles: the four clip slots the controller looks up
(`IDLE_ANIM_NAME`, `MOVEMENT_ANIM_NAME`, `ATTACK_ANIM_NAME`,
`EMOTE_ANIM_NAME`).  `useAnimations` yields at most one action instance per
name, so an action instance is identified by its role. -/
inductive ClipRole
  | idle
  | move
  | attack
  | emote
deriving DecidableEq

/-- Which canonical roles have a bound action (`actions[name]` non-null). -/
structure Bindings where
  idle : Bool
  move : Bool
  attack : Bool
  emote : Bool
deriving DecidableEq

/-- Mixer side effects performed by one run of the animation effect. -/
inductive AnimEffect
  | fadeOutEff (r : ClipRole)            -- action.fadeOut(0.2)
  | playOnceClamped (r : ClipRole)       -- reset().setLoop(LoopOnce,1).play(); clampWhenFinished
  | setHalfTimeScale (r : ClipRole)      -- emoteAction.timeScale = 0.5
  | addFinishedListener (r : ClipRole)   -- mixer.addEventListener listening for this action
  | ensureLooping (r : ClipRole)         -- same-target branch: play() if stopped, force LoopRepeat
  | startLooping (r : ClipRole)          -- reset, LoopRepeat Infinity, timescale, fadeIn(0.2), play
deriving DecidableEq

/-- The mutable refs of the `Model` component that the animation effect,
the input handlers and the mixer "finished" listeners read and write.
`attackHandler` / `emoteHandler` record whether the corresponding
`onAttackFinished` / `onEmoteFinished` listener is currently registered on
the mixer. -/
structure AnimState where
  attackRequested : Bool
  attackInProgress : Bool
  emoteRequested : Bool
  emoteInProgress : Bool
  currentAction : Option ClipRole
  trigger : Nat
  attackHandler : Bool
  emoteHandler : Bool
deriving DecidableEq

/-- Idle/Move target selection (`let targetAction = null; if (isMoving && moveAction) ... else if (!isMoving && idleAction) ...`). -/
def selectTarget (b : Bindings) (isMoving : Bool) : Option ClipRole :=
  if isMoving && b.move then some ClipRole.move
  else if !isMoving && b.idle then some ClipRole.idle
  else none

/-- The Idle/Move tail of the animation effect: if no target is available
the effect returns having done nothing; if the target is already current it
only ensures it is playing and looping; otherwise it fades out the current
action, resets the target, forces LoopRepeat, sets its time-scale, fades it
in and records it as current. -/
def idleMoveStep (b : Bindings) (isMoving : Bool) (s : AnimState) :
    AnimState × List AnimEffect :=
  match selectTarget b isMoving with
  | none => (s, [])
  | some t =>
    if s.currentAction = some t then
      (s, [AnimEffect.ensureLooping t])
    else
      match s.currentAction with
      | some c =>
          ({ s with currentAction := some t },
           [AnimEffect.fadeOutEff c, AnimEffect.startLooping t])
      | none =>
          ({ s with currentAction := some t }, [AnimEffect.startLooping t])

/-- One run of the animation switching effect (the `useEffect` with deps
`[isMoving, actions, mixer, triggerAnimationEffect, modelPath]`), for the
default-model path with a non-empty action table and a mixer present.
Mirrors the source order: attack-start branch, emote-start branch, then
Idle/Move logic.  Note the source has no early return for
`attackInProgress` or `emoteInProgress`: when neither start branch fires,
control always reaches the Idle/Move logic. -/
def evalAnim (b : Bindings) (isMoving : Bool) (s : AnimState) :
    AnimState × List AnimEffect :=
  if s.attackRequested && b.attack && !s.attackInProgress then
    let fade : List AnimEffect :=
      match s.currentAction with
      | some c =>
          if c = ClipRole.attack then [] else [AnimEffect.fadeOutEff c]
      | none => []
    ({ s with attackRequested := false, attackInProgress := true,
              emoteRequested := false, emoteInProgress := false,
              currentAction := some ClipRole.attack, attackHandler := true },
     fade ++ [AnimEffect.playOnceClamped ClipRole.attack,
              AnimEffect.addFinishedListener ClipRole.attack])
  else if s.emoteRequested && b.emote && !s.emoteInProgress then
    let fade : List AnimEffect :=
      match s.currentAction with
      | some c =>
          if c = ClipRole.emote then [] else [AnimEffect.fadeOutEff c]
      | none => []
    ({ s with emoteRequested := false, emoteInProgress := true,
              currentAction := some ClipRole.emote, emoteHandler := true },
     fade ++ [AnimEffect.playOnceClamped ClipRole.emote,
              AnimEffect.setHalfTimeScale ClipRole.emote,
              AnimEffect.addFinishedListener ClipRole.emote])
  else idleMoveStep b isMoving s

/-- The `handleKeyDown` branch for the key `e`: the request flag is only
set when neither an attack nor an emote is in progress. -/
def handleKeyDownE (s : AnimState) : AnimState :=
  if !s.attackInProgress && !s.emoteInProgress then
    { s with emoteRequested := true, trigger := s.trigger + 1 }
  else s

/-- Embeds `handleMouseDown` for the left button: the request flag is only set
when neither an attack nor an emote is in progress. -/
def handleMouseDownLeft (s : AnimState) : AnimState :=
  if !s.attackInProgress && !s.emoteInProgress then
    { s with attackRequested := true, trigger := s.trigger + 1 }
  else s

/-- Delivery of a mixer "finished" event carrying the action instance `ev`
to the currently registered listeners (`onAttackFinished`,
`onEmoteFinished`): a listener fires only when the event's action equals
the instance it was registered for, and then clears its in-progress flag,
removes itself from the mixer, and bumps `triggerAnimationEffect`. -/
def dispatchFinished (s : AnimState) (ev : ClipRole) : AnimState :=
  let s1 :=
    if s.attackHandler && ev = ClipRole.attack then
      { s with attackInProgress := false, attackHandler := false,
               trigger := s.trigger + 1 }
    else s
  if s1.emoteHandler && ev = ClipRole.emote then
    { s1 with emoteInProgress := false, emoteHandler := false,
              trigger := s1.trigger + 1 }
  else s1

/-- C1: if an attack is requested (attackRequested set) while an emote is
in progress — emoteInProgress true, attackInProgress false, an Attack clip
bound, the emote being the current action — then the same evaluation of
the animation effect cancels the emote (both its flags become false and it
is faded out) and starts Attack: Attack is reset and played once, and
becomes the current action, with attackInProgress set. -/
theorem attack_request_cancels_emote_and_starts_attack
    (b : Bindings) (mv : Bool) (s : AnimState)
    (hreq : s.attackRequested = true) (hbound : b.attack = true)
    (hnoatk : s.attackInProgress = false) (hemo : s.emoteInProgress = true)
    (hcur : s.currentAction = some ClipRole.emote) :
    (evalAnim b mv s).1.emoteInProgress = false ∧
    (evalAnim b mv s).1.emoteRequested = false ∧
    (evalAnim b mv s).2 =
      [AnimEffect.fadeOutEff ClipRole.emote,
       AnimEffect.playOnceClamped ClipRole.attack,
       AnimEffect.addFinishedListener ClipRole.attack] ∧
    (evalAnim b mv s).1.currentAction = some ClipRole.attack ∧
    (evalAnim b mv s).1.attackInProgress = true ∧
    (evalAnim b mv s).1.attackRequested = false := by
  simp [evalAnim, hreq, hbound, hnoatk, hcur]

/-- Witness for C1 at a concrete state: emote in progress and current,
attack requested, everything bound. -/
theorem attack_request_cancels_emote_and_starts_attack_witness :
    (AnimState.mk true false false true (some ClipRole.emote) 0 false true).attackRequested = true ∧
    (Bindings.mk true true true true).attack = true ∧
    ((evalAnim (Bindings.mk true true true true) false
        (AnimState.mk true false false true (some ClipRole.emote) 0 false true)).1.emoteInProgress = false ∧
     (evalAnim (Bindings.mk true true true true) false
        (AnimState.mk true false false true (some ClipRole.emote) 0 false true)).1.emoteRequested = false ∧
     (evalAnim (Bindings.mk true true true true) false
        (AnimState.mk true false false true (some ClipRole.emote) 0 false true)).2 =
       [AnimEffect.fadeOutEff ClipRole.emote,
        AnimEffect.playOnceClamped ClipRole.attack,
        AnimEffect.addFinishedListener ClipRole.attack] ∧
     (evalAnim (Bindings.mk true true true true) false
        (AnimState.mk true false false true (some ClipRole.emote) 0 false true)).1.currentAction = some ClipRole.attack ∧
     (evalAnim (Bindings.mk true true true true) false
        (AnimState.mk true false false true (some ClipRole.emote) 0 false true)).1.attackInProgress = true ∧
     (evalAnim (Bindings.mk true true true true) false
        (AnimState.mk true false false true (some ClipRole.emote) 0 false true)).1.attackRequested = false) :=
  ⟨rfl, rfl,
   attack_request_cancels_emote_and_starts_attack
     (Bindings.mk true true true true) false
     (AnimState.mk true false false true (some ClipRole.emote) 0 false true)
     rfl rfl rfl rfl rfl⟩

/-- C2 counterexample: with an attack in progress (attackInProgress true,
Attack the current action, no pending requests, all clips bound) and
isMoving true, one evaluation of the animation effect does NOT keep Attack
current: the source has no "attack hold" step, so the Idle/Move logic runs,
fades the running Attack out and makes Move the current action. -/
theorem attack_hold_violated_at_concrete_state :
    (evalAnim (Bindings.mk true true true true) true
        (AnimState.mk false true false false (some ClipRole.attack) 0 true false)).1.currentAction
      ≠ some ClipRole.attack ∧
    (evalAnim (Bindings.mk true true true true) true
        (AnimState.mk false true false false (some ClipRole.attack) 0 true false)) =
      (AnimState.mk false true false false (some ClipRole.move) 0 true false,
       [AnimEffect.fadeOutEff ClipRole.attack,
        AnimEffect.startLooping ClipRole.move]) := by
  constructor
  · decide
  · decide

/-- C2 amended: while attackInProgress is true, new Attack or Emote
requests are indeed ignored — the input handlers leave the state unchanged,
and with no pending request flags neither one-shot start branch fires — but
the evaluation does not hold: it always falls through to the Idle/Move
selection step, which (when a target clip is bound that differs from the
running Attack) fades the running Attack out and replaces it as current
action. -/
theorem attack_in_progress_requests_ignored_but_idle_move_replaces
    (b : Bindings) (mv : Bool) (s : AnimState)
    (hatk : s.attackInProgress = true)
    (hra : s.attackRequested = false) (hre : s.emoteRequested = false) :
    handleMouseDownLeft s = s ∧
    handleKeyDownE s = s ∧
    evalAnim b mv s = idleMoveStep b mv s ∧
    (mv = true → b.move = true → s.currentAction = some ClipRole.attack →
      (evalAnim b mv s).1.currentAction = some ClipRole.move ∧
      AnimEffect.fadeOutEff ClipRole.attack ∈ (evalAnim b mv s).2) := by
  refine ⟨?_, ?_, ?_, ?_⟩
  · simp [handleMouseDownLeft, hatk]
  · simp [handleKeyDownE, hatk]
  · simp [evalAnim, hra, hre]
  · intro hmv hbm hcur
    simp [evalAnim, idleMoveStep, selectTarget, hra, hre, hmv, hbm, hcur]

/-- Witness for C2 amended at a concrete state. -/
theorem attack_in_progress_requests_ignored_witness :
    (AnimState.mk false true false false (some ClipRole.attack) 0 true false).attackInProgress = true ∧
    (handleMouseDownLeft (AnimState.mk false true false false (some ClipRole.attack) 0 true false) =
       AnimState.mk false true false false (some ClipRole.attack) 0 true false ∧
     handleKeyDownE (AnimState.mk false true false false (some ClipRole.attack) 0 true false) =
       AnimState.mk false true false false (some ClipRole.attack) 0 true false ∧
     evalAnim (Bindings.mk true true true true) true
         (AnimState.mk false true false false (some ClipRole.attack) 0 true false) =
       idleMoveStep (Bindings.mk true true true true) true
         (AnimState.mk false true false false (some ClipRole.attack) 0 true false) ∧
     (true = true → (Bindings.mk true true true true).move = true →
       (AnimState.mk false true false false (some ClipRole.attack) 0 true false).currentAction = some ClipRole.attack →
       (evalAnim (Bindings.mk true true true true) true
           (AnimState.mk false true false false (some ClipRole.attack) 0 true false)).1.currentAction = some ClipRole.move ∧
       AnimEffect.fadeOutEff ClipRole.attack ∈
         (evalAnim (Bindings.mk true true true true) true
           (AnimState.mk false true false false (some ClipRole.attack) 0 true false)).2)) :=
  ⟨rfl,
   attack_in_progress_requests_ignored_but_idle_move_replaces
     (Bindings.mk true true true true) true
     (AnimState.mk false true false false (some ClipRole.attack) 0 true false)
     rfl rfl rfl⟩

/-- C3 counterexample: with an emote in progress and current, the character
not moving, no requests pending and all clips bound, one evaluation does
NOT hold: the source has no "emote hold" step, so the Idle/Move logic fades
the emote out and makes Idle the current action, and `emoteInProgress`
remains true (it is not cleared). -/
theorem emote_hold_violated_at_concrete_state :
    (evalAnim (Bindings.mk true true true true) false
        (AnimState.mk false false false true (some ClipRole.emote) 0 false true)) =
      (AnimState.mk false false false true (some ClipRole.idle) 0 false true,
       [AnimEffect.fadeOutEff ClipRole.emote,
        AnimEffect.startLooping ClipRole.idle]) ∧
    (evalAnim (Bindings.mk true true true true) false
        (AnimState.mk false false false true (some ClipRole.emote) 0 false true)).1.currentAction
      ≠ some ClipRole.emote ∧
    (evalAnim (Bindings.mk true true true true) false
        (AnimState.mk false false false true (some ClipRole.emote) 0 false true)).1.emoteInProgress
      = true := by
  refine ⟨by decide, by decide, by decide⟩

/-- C3 amended: when an emote is in progress (and no attack start fires,
i.e. attackRequested is false), the evaluation neither holds nor clears the
emote flags: it always falls through to the Idle/Move selection step, so —
moving or not — the emote is faded out and replaced as current action by
Move (if moving and Move is bound) or Idle (if not moving and Idle is
bound), while emoteInProgress keeps its previous value (true). -/
theorem emote_in_progress_falls_through_to_idle_move
    (b : Bindings) (mv : Bool) (s : AnimState)
    (hemo : s.emoteInProgress = true) (hra : s.attackRequested = false) :
    evalAnim b mv s = idleMoveStep b mv s ∧
    (evalAnim b mv s).1.emoteInProgress = true ∧
    (evalAnim b mv s).1.emoteRequested = s.emoteRequested ∧
    (mv = true → b.move = true → s.currentAction = some ClipRole.emote →
      (evalAnim b mv s).1.currentAction = some ClipRole.move ∧
      AnimEffect.fadeOutEff ClipRole.emote ∈ (evalAnim b mv s).2) ∧
    (mv = false → b.idle = true → s.currentAction = some ClipRole.emote →
      (evalAnim b mv s).1.currentAction = some ClipRole.idle ∧
      AnimEffect.fadeOutEff ClipRole.emote ∈ (evalAnim b mv s).2) := by
  have hstep : evalAnim b mv s = idleMoveStep b mv s := by
    simp [evalAnim, hra, hemo]
  refine ⟨hstep, ?_, ?_, ?_, ?_⟩
  · rw [hstep]
    unfold idleMoveStep
    cases h : selectTarget b mv with
    | none => simp [hemo]
    | some t =>
        by_cases hc : s.currentAction = some t
        · simp [hc, hemo]
        · cases hcur : s.currentAction with
          | none => simp [hc, hcur, hemo]
          | some c =>
              have hct : ¬c = t := by
                rw [hcur] at hc
                simpa using hc
              simp [hc, hcur, hct, hemo]
  · rw [hstep]
    unfold idleMoveStep
    cases h : selectTarget b mv with
    | none => simp
    | some t =>
        by_cases hc : s.currentAction = some t
        · simp [hc]
        · cases hcur : s.currentAction with
          | none => simp [hc, hcur]
          | some c =>
              have hct : ¬c = t := by
                rw [hcur] at hc
                simpa using hc
              simp [hc, hcur, hct]
  · intro hmv hbm hcur
    rw [hstep]
    simp [idleMoveStep, selectTarget, hmv, hbm, hcur]
  · intro hmv hbi hcur
    rw [hstep]
    simp [idleMoveStep, selectTarget, hmv, hbi, hcur]

/-- Witness for C3 amended at a concrete state (emote in progress, not
moving, Idle bound). -/
theorem emote_in_progress_falls_through_witness :
    (AnimState.mk false false false true (some ClipRole.emote) 0 false true).emoteInProgress = true ∧
    (evalAnim (Bindings.mk true true true true) false
        (AnimState.mk false false false true (some ClipRole.emote) 0 false true) =
      idleMoveStep (Bindings.mk true true true true) false
        (AnimState.mk false false false true (some ClipRole.emote) 0 false true) ∧
     (evalAnim (Bindings.mk true true true true) false
        (AnimState.mk false false false true (some ClipRole.emote) 0 false true)).1.emoteInProgress = true ∧
     (evalAnim (Bindings.mk true true true true) false
        (AnimState.mk false false false true (some ClipRole.emote) 0 false true)).1.emoteRequested =
       (AnimState.mk false false false true (some ClipRole.emote) 0 false true).emoteRequested ∧
     (false = true → (Bindings.mk true true true true).move = true →
       (AnimState.mk false false false true (some ClipRole.emote) 0 false true).currentAction = some ClipRole.emote →
       (evalAnim (Bindings.mk true true true true) false
           (AnimState.mk false false false true (some ClipRole.emote) 0 false true)).1.currentAction = some ClipRole.move ∧
       AnimEffect.fadeOutEff ClipRole.emote ∈
         (evalAnim (Bindings.mk true true true true) false
           (AnimState.mk false false false true (some ClipRole.emote) 0 false true)).2) ∧
     (false = false → (Bindings.mk true true true true).idle = true →
       (AnimState.mk false false false true (some ClipRole.emote) 0 false true).currentAction = some ClipRole.emote →
       (evalAnim (Bindings.mk true true true true) false
           (AnimState.mk false false false true (some ClipRole.emote) 0 false true)).1.currentAction = some ClipRole.idle ∧
       AnimEffect.fadeOutEff ClipRole.emote ∈
         (evalAnim (Bindings.mk true true true true) false
           (AnimState.mk false false false true (some ClipRole.emote) 0 false true)).2)) :=
  ⟨rfl,
   emote_in_progress_falls_through_to_idle_move
     (Bindings.mk true true true true) false
     (AnimState.mk false false false true (some ClipRole.emote) 0 false true)
     rfl rfl⟩

/-- C5 counterexample: moving with no Move clip bound but an Idle clip
available (clean state, Idle current), the evaluation selects and plays
nothing at all — the state is unchanged and the effect list is empty.  The
source falls straight from `if (isMoving && moveAction)` /
`else if (!isMoving && idleAction)` to `if (!targetAction) return`; there
is no first-available-clip fallback. -/
theorem moving_without_move_clip_skips_despite_idle :
    evalAnim (Bindings.mk true false true true) true
        (AnimState.mk false false false false (some ClipRole.idle) 0 false false) =
      (AnimState.mk false false false false (some ClipRole.idle) 0 false false, []) := by
  decide

/-- C5 amended: with no pending one-shot requests, the Idle/Move target is
exactly Move when moving and Move is bound, exactly Idle when not moving
and Idle is bound, and otherwise there is no target and the evaluation
skips the frame's action update entirely (state unchanged, no effects) —
in particular when moving with Move unbound, even if Idle is bound.  There
is no fallback to the first available bound clip. -/
theorem idle_move_selection_no_fallback
    (b : Bindings) (mv : Bool) (s : AnimState)
    (hra : s.attackRequested = false) (hre : s.emoteRequested = false) :
    (mv = true → b.move = false → evalAnim b mv s = (s, [])) ∧
    (mv = false → b.idle = false → evalAnim b mv s = (s, [])) ∧
    (mv = true → b.move = true → s.currentAction ≠ some ClipRole.move →
      (evalAnim b mv s).1.currentAction = some ClipRole.move ∧
      AnimEffect.startLooping ClipRole.move ∈ (evalAnim b mv s).2) ∧
    (mv = false → b.idle = true → s.currentAction ≠ some ClipRole.idle →
      (evalAnim b mv s).1.currentAction = some ClipRole.idle ∧
      AnimEffect.startLooping ClipRole.idle ∈ (evalAnim b mv s).2) := by
  have hstep : evalAnim b mv s = idleMoveStep b mv s := by
    simp [evalAnim, hra, hre]
  refine ⟨?_, ?_, ?_, ?_⟩
  · intro hmv hbm
    rw [hstep]
    simp [idleMoveStep, selectTarget, hmv, hbm]
  · intro hmv hbi
    rw [hstep]
    simp [idleMoveStep, selectTarget, hmv, hbi]
  · intro hmv hbm hcur
    rw [hstep]
    unfold idleMoveStep
    simp only [selectTarget, hmv, hbm]
    cases hc : s.currentAction with
    | none => simp [hc]
    | some c =>
        have hcm : ¬c = ClipRole.move := by
          rw [hc] at hcur
          simpa using hcur
        simp [hc, hcm]
  · intro hmv hbi hcur
    rw [hstep]
    unfold idleMoveStep
    simp only [selectTarget, hmv, hbi]
    cases hc : s.currentAction with
    | none => simp [hc]
    | some c =>
        have hci : ¬c = ClipRole.idle := by
          rw [hc] at hcur
          simpa using hcur
        simp [hc, hci]

/-- Witness for C5 amended at a concrete clean state with all clips
bound. -/
theorem idle_move_selection_no_fallback_witness :
    (AnimState.mk false false false false (some ClipRole.idle) 0 false false).attackRequested = false ∧
    ((true = true → (Bindings.mk true true true true).move = false →
       evalAnim (Bindings.mk true true true true) true
           (AnimState.mk false false false false (some ClipRole.idle) 0 false false) =
         (AnimState.mk false false false false (some ClipRole.idle) 0 false false, [])) ∧
     (true = false → (Bindings.mk true true true true).idle = false →
       evalAnim (Bindings.mk true true true true) true
           (AnimState.mk false false false false (some ClipRole.idle) 0 false false) =
         (AnimState.mk false false false false (some ClipRole.idle) 0 false false, [])) ∧
     (true = true → (Bindings.mk true true true true).move = true →
       (AnimState.mk false false false false (some ClipRole.idle) 0 false false).currentAction ≠ some ClipRole.move →
       (evalAnim (Bindings.mk true true true true) true
           (AnimState.mk false false false false (some ClipRole.idle) 0 false false)).1.currentAction = some ClipRole.move ∧
       AnimEffect.startLooping ClipRole.move ∈
         (evalAnim (Bindings.mk true true true true) true
           (AnimState.mk false false false false (some ClipRole.idle) 0 false false)).2) ∧
     (true = false → (Bindings.mk true true true true).idle = true →
       (AnimState.mk false false false false (some ClipRole.idle) 0 false false).currentAction ≠ some ClipRole.idle →
       (evalAnim (Bindings.mk true true true true) true
           (AnimState.mk false false false false (some ClipRole.idle) 0 false false)).1.currentAction = some ClipRole.idle ∧
       AnimEffect.startLooping ClipRole.idle ∈
         (evalAnim (Bindings.mk true true true true) true
           (AnimState.mk false false false false (some ClipRole.idle) 0 false false)).2)) :=
  ⟨rfl,
   idle_move_selection_no_fallback (Bindings.mk true true true true) true
     (AnimState.mk false false false false (some ClipRole.idle) 0 false false)
     rfl rfl⟩

/-- C6: each one-shot finish listener fires only for a "finished" event
whose action equals the instance it was registered for (events carrying any
other action leave the state unchanged); when it fires it clears the
corresponding in-progress flag, removes itself from the mixer and bumps the
re-evaluation trigger; firing is at most once (a second identical event is
a no-op); and after the attack listener fires, an evaluation with no
pending requests falls through to the Idle/Move selection step. -/
theorem finished_handler_scoped_once_and_falls_through
    (b : Bindings) (mv : Bool) (s : AnimState) (ev : ClipRole)
    (hha : s.attackHandler = true) (hhe : s.emoteHandler = true)
    (heva : ev ≠ ClipRole.attack) (heve : ev ≠ ClipRole.emote)
    (hra : s.attackRequested = false) (hre : s.emoteRequested = false) :
    dispatchFinished s ev = s ∧
    (dispatchFinished s ClipRole.attack).attackInProgress = false ∧
    (dispatchFinished s ClipRole.attack).attackHandler = false ∧
    (dispatchFinished s ClipRole.attack).trigger = s.trigger + 1 ∧
    (dispatchFinished s ClipRole.emote).emoteInProgress = false ∧
    (dispatchFinished s ClipRole.emote).emoteHandler = false ∧
    dispatchFinished (dispatchFinished s ClipRole.attack) ClipRole.attack =
      dispatchFinished s ClipRole.attack ∧
    dispatchFinished (dispatchFinished s ClipRole.emote) ClipRole.emote =
      dispatchFinished s ClipRole.emote ∧
    evalAnim b mv (dispatchFinished s ClipRole.attack) =
      idleMoveStep b mv (dispatchFinished s ClipRole.attack) := by
  refine ⟨?_, ?_, ?_, ?_, ?_, ?_, ?_, ?_, ?_⟩
  · simp [dispatchFinished, heva, heve]
  · simp [dispatchFinished, hha]
  · simp [dispatchFinished, hha]
  · simp [dispatchFinished, hha]
  · simp [dispatchFinished, hhe]
  · simp [dispatchFinished, hhe]
  · simp [dispatchFinished, hha]
  · simp [dispatchFinished, hhe]
  · simp [evalAnim, dispatchFinished, hha, hra, hre]

/-- Witness for C6 at a concrete state: both listeners registered, both
one-shots notionally pending completion, a stale event carrying the Idle
action. -/
theorem finished_handler_scoped_once_witness :
    (AnimState.mk false true false true (some ClipRole.attack) 3 true true).attackHandler = true ∧
    (dispatchFinished (AnimState.mk false true false true (some ClipRole.attack) 3 true true) ClipRole.idle =
       AnimState.mk false true false true (some ClipRole.attack) 3 true true ∧
     (dispatchFinished (AnimState.mk false true false true (some ClipRole.attack) 3 true true) ClipRole.attack).attackInProgress = false ∧
     (dispatchFinished (AnimState.mk false true false true (some ClipRole.attack) 3 true true) ClipRole.attack).attackHandler = false ∧
     (dispatchFinished (AnimState.mk false true false true (some ClipRole.attack) 3 true true) ClipRole.attack).trigger =
       (AnimState.mk false true false true (some ClipRole.attack) 3 true true).trigger + 1 ∧
     (dispatchFinished (AnimState.mk false true false true (some ClipRole.attack) 3 true true) ClipRole.emote).emoteInProgress = false ∧
     (dispatchFinished (AnimState.mk false true false true (some ClipRole.attack) 3 true true) ClipRole.emote).emoteHandler = false ∧
     dispatchFinished (dispatchFinished (AnimState.mk false true false true (some ClipRole.attack) 3 true true) ClipRole.attack) ClipRole.attack =
       dispatchFinished (AnimState.mk false true false true (some ClipRole.attack) 3 true true) ClipRole.attack ∧
     dispatchFinished (dispatchFinished (AnimState.mk false true false true (some ClipRole.attack) 3 true true) ClipRole.emote) ClipRole.emote =
       dispatchFinished (AnimState.mk false true false true (some ClipRole.attack) 3 true true) ClipRole.emote ∧
     evalAnim (Bindings.mk true true true true) false
         (dispatchFinished (AnimState.mk false true false true (some ClipRole.attack) 3 true true) ClipRole.attack) =
       idleMoveStep (Bindings.mk true true true true) false
         (dispatchFinished (AnimState.mk false true false true (some ClipRole.attack) 3 true true) ClipRole.attack)) :=
  ⟨rfl,
   finished_handler_scoped_once_and_falls_through
     (Bindings.mk true true true true) false
     (AnimState.mk false true false true (some ClipRole.attack) 3 true true)
     ClipRole.idle rfl rfl (by decide) (by decide) rfl rfl⟩

/-! ### Locomotion and camera: real-valued embedding

`useFrame` movement in `Model` and the `FollowCamera` frame callback,
embedded over the real numbers.  JavaScript `Math` and three.js vector
operations are spelled out (`Vector3.normalize` divides by
`length() || 1`, so the zero vector is left unchanged; `Vector3.lerp` is
componentwise `a + (b - a) * alpha`). -/

/-- A three.js `Vector3` over exact reals. -/
@[ext] structure Vec3 where
  x : ℝ
  y : ℝ
  z : ℝ

/-- Embeds `Vector3.lengthSq()`. -/
def Vec3.lengthSq (v : Vec3) : ℝ := v.x ^ 2 + v.y ^ 2 + v.z ^ 2

/-- Embeds `Vector3.length()`. -/
noncomputable def Vec3.length (v : Vec3) : ℝ :=
  Real.sqrt (v.x ^ 2 + v.y ^ 2 + v.z ^ 2)

/-- Embeds `Vector3.normalize()`: `divideScalar(length() || 1)` — a zero-length
vector is divided by 1, i.e. left unchanged. -/
noncomputable def Vec3.normalize (v : Vec3) : Vec3 :=
  let l := if v.length = 0 then 1 else v.length
  ⟨v.x / l, v.y / l, v.z / l⟩

/-- Embeds JavaScript `Math.atan2(y, x)`. -/
noncomputable def atan2 (y x : ℝ) : ℝ :=
  if 0 < x then Real.arctan (y / x)
  else if x < 0 then
    (if 0 ≤ y then Real.arctan (y / x) + Real.pi
     else Real.arctan (y / x) - Real.pi)
  else if 0 < y then Real.pi / 2
  else if y < 0 then -(Real.pi / 2)
  else 0

/-- Constant `moveSpeed` in `Model`. -/
def moveSpeed : ℝ := 0.05

/-- Constant `rotationSpeed` in `Model`. -/
def rotationSpeed : ℝ := 0.03

/-- Constant `rotationLerpFactor` in the `useFrame` rotation smoothing. -/
def rotationLerpFactor : ℝ := 0.05

/-- The y the model is pinned to while moving: 0 for the queen model,
-2.0 otherwise. -/
def floorY (isQueen : Bool) : ℝ := if isQueen then 0 else -2.0

/-- The per-frame key state read from `keysPressed.current`. -/
structure Keys where
  w : Bool
  s : Bool
  a : Bool
  d : Bool

/-- Only the `w` key held. -/
def keysW : Keys := Keys.mk true false false false

/-- The character state mutated by the `useFrame` movement update:
`ref.current.position`, `ref.current.rotation.y`, the `targetRotation`
ref, and the React `isMoving` state. -/
structure CharState where
  pos : Vec3
  rotY : ℝ
  targetRot : ℝ
  isMoving : Bool

/-- The camera world direction flattened to the horizontal plane and
normalized (`getWorldDirection`; `cameraDirection.y = 0; normalize()`). -/
noncomputable def flattenNormalize (cam : Vec3) : Vec3 :=
  Vec3.normalize ⟨cam.x, 0, cam.z⟩

/-- Accumulation of `moveDirection` from the `w`/`s` branches:
`add(cameraDirection)` for `w`, `sub(cameraDirection)` for `s`. -/
noncomputable def moveDir (cd : Vec3) (k : Keys) : Vec3 :=
  let m1 : Vec3 := if k.w then ⟨cd.x, cd.y, cd.z⟩ else ⟨0, 0, 0⟩
  if k.s then ⟨m1.x - cd.x, m1.y - cd.y, m1.z - cd.z⟩ else m1

/-- One `useFrame` movement update of `Model`.  Returns the new character
state together with whether the trailing `setIsMoving(currentlyMoving)`
call changes the React state (React bails out of re-rendering when the new
value equals the old one, so a same-value call triggers no downstream
re-evaluation).  Mirrors the source order: read camera direction
(flattened, normalized; the strafe `right` vector is computed in the
source but never used by the position update), accumulate `moveDirection`
and `currentlyMoving` from `w`/`s`, accumulate `targetRotation` and
`currentlyMoving` from `a`/`d`, smooth the rotation through
`atan2(sin, cos)` of the difference times `rotationLerpFactor`, then, only
when `moveDirection.lengthSq() > 0`, step the position by `moveSpeed`
along the character's own yaw-forward `(sin rotY, 0, cos rotY)` and pin
`position.y` to the floor constant. -/
noncomputable def frameUpdate (isQueen : Bool) (cam : Vec3) (k : Keys)
    (st : CharState) : CharState × Bool :=
  let cameraDirection := flattenNormalize cam
  let md := moveDir cameraDirection k
  let currentlyMoving := k.w || k.s || k.a || k.d
  let tr := st.targetRot + (if k.a then rotationSpeed else 0)
              - (if k.d then rotationSpeed else 0)
  let rotationDiff := tr - st.rotY
  let normalizedDiff := atan2 (Real.sin rotationDiff) (Real.cos rotationDiff)
  let ry := st.rotY + normalizedDiff * rotationLerpFactor
  let newPos : Vec3 :=
    if 0 < md.lengthSq then
      ⟨st.pos.x + Real.sin ry * moveSpeed, floorY isQueen,
       st.pos.z + Real.cos ry * moveSpeed⟩
    else st.pos
  (CharState.mk newPos ry tr currentlyMoving, currentlyMoving != st.isMoving)

/-- Runs `n` consecutive `useFrame` movement updates under a fixed camera
direction and key state. -/
noncomputable def runFrames (isQueen : Bool) (cam : Vec3) (k : Keys) :
    Nat → CharState → CharState
  | 0, st => st
  | n + 1, st => runFrames isQueen cam k n (frameUpdate isQueen cam k st).1

/-- Constant `CAMERA_SMOOTH_SPEED`. -/
def CAMERA_SMOOTH_SPEED : ℝ := 5.0

/-- Constant `MIN_CAMERA_HEIGHT` in the FollowCamera frame callback. -/
def MIN_CAMERA_HEIGHT : ℝ := 2.0

/-- The initial-snap effect of FollowCamera: camera placed at the model's
world position plus `(0, 3.0, 8.0)`, no smoothing. -/
def snapCamera (modelPos : Vec3) : Vec3 :=
  ⟨modelPos.x, modelPos.y + 3.0, modelPos.z + 8.0⟩

/-- The desired camera position computed each FollowCamera frame: behind
the model along `fwd` (the model's world direction negated) at distance
`|CAMERA_LOCAL_OFFSET.z| = 8`, at height `modelPos.y + 3.0` clamped up to
`MIN_CAMERA_HEIGHT`. -/
noncomputable def desiredCameraPos (modelPos fwd : Vec3) : Vec3 :=
  let cx := modelPos.x + fwd.x * 8
  let cz := modelPos.z + fwd.z * 8
  let cy0 := modelPos.y + 3.0
  let cy := if cy0 < MIN_CAMERA_HEIGHT then MIN_CAMERA_HEIGHT else cy0
  ⟨cx, cy, cz⟩

/-- Embeds `Vector3.lerp(v, alpha)`: componentwise `a + (b - a) * alpha`. -/
def lerpVec (a b : Vec3) (t : ℝ) : Vec3 :=
  ⟨a.x + (b.x - a.x) * t, a.y + (b.y - a.y) * t, a.z + (b.z - a.z) * t⟩

/-- One FollowCamera `useFrame` step: exponential smoothing of the camera
position toward the desired position with
`lerpFactor = 1.0 - exp(-CAMERA_SMOOTH_SPEED * delta)`. -/
noncomputable def cameraFrame (cam modelPos fwd : Vec3) (delta : ℝ) : Vec3 :=
  let lerpFactor := 1 - Real.exp (-CAMERA_SMOOTH_SPEED * delta)
  lerpVec cam (desiredCameraPos modelPos fwd) lerpFactor

/-- C8: the FollowCamera position update is the exponential-smoothing step
`newPos = lerp(curPos, desiredPos, 1 - exp(-smoothSpeed * delta))` with
`smoothSpeed = 5.0`, and it is frame-rate independent: stepping with
`d1` and then `d2` toward a fixed desired position equals a single step
with `d1 + d2`, over exact real arithmetic. -/
theorem camera_smoothing_exponential_and_composes
    (cam modelPos fwd : Vec3) (d1 d2 : ℝ) :
    cameraFrame cam modelPos fwd d1 =
      lerpVec cam (desiredCameraPos modelPos fwd)
        (1 - Real.exp (-CAMERA_SMOOTH_SPEED * d1)) ∧
    cameraFrame (cameraFrame cam modelPos fwd d1) modelPos fwd d2 =
      cameraFrame cam modelPos fwd (d1 + d2) := by
  constructor
  · rfl
  · have he : Real.exp (-CAMERA_SMOOTH_SPEED * (d1 + d2)) =
        Real.exp (-CAMERA_SMOOTH_SPEED * d1) *
          Real.exp (-CAMERA_SMOOTH_SPEED * d2) := by
      rw [← Real.exp_add]
      ring_nf
    ext <;> simp only [cameraFrame, lerpVec, he] <;> ring

/-- The lerp factor `1 - exp(-5 * delta)` lies in `[0, 1)` for `delta ≥ 0`. -/
theorem lerpFactor_mem (delta : ℝ) (hd : 0 ≤ delta) :
    0 ≤ 1 - Real.exp (-CAMERA_SMOOTH_SPEED * delta) ∧
      1 - Real.exp (-CAMERA_SMOOTH_SPEED * delta) < 1 := by
  have hle : Real.exp (-CAMERA_SMOOTH_SPEED * delta) ≤ 1 := by
    rw [Real.exp_le_one_iff]
    have : (0 : ℝ) ≤ CAMERA_SMOOTH_SPEED * delta := by
      have h5 : (0 : ℝ) ≤ CAMERA_SMOOTH_SPEED := by norm_num [CAMERA_SMOOTH_SPEED]
      exact mul_nonneg h5 hd
    linarith
  have hpos : 0 < Real.exp (-CAMERA_SMOOTH_SPEED * delta) := Real.exp_pos _
  constructor <;> linarith

/-- C7 counterexample: for the default character model (world position
`(0, -2, 0)`, as set by the `position={[0, -2.0, 0]}` prop), the initial
snap places the camera at height `-2 + 3 = 1`, below
`MIN_CAMERA_HEIGHT = 2`; the very next FollowCamera frame (delta 1)
smooths toward the clamped desired height 2 without reaching it, so the
camera height is still strictly below the floor value. -/
theorem camera_height_floor_violated_after_snap :
    (cameraFrame (snapCamera (Vec3.mk 0 (-2) 0)) (Vec3.mk 0 (-2) 0)
        (Vec3.mk 0 0 1) 1).y < MIN_CAMERA_HEIGHT := by
  have hpos := Real.exp_pos (-CAMERA_SMOOTH_SPEED)
  simp only [cameraFrame, lerpVec, desiredCameraPos, snapCamera,
    MIN_CAMERA_HEIGHT]
  norm_num
  linarith

/-- C7 amended: the desired camera height is clamped to
`MIN_CAMERA_HEIGHT` before smoothing, and a smoothing step with
nonnegative delta preserves the bound `camera.y ≥ MIN_CAMERA_HEIGHT`; the
initial snap places the camera at the model's height plus 3.0, which
satisfies the bound iff the model's height is at least -1.0 (true for the
queen model at height 0, false for the default model at height -2.0, whose
camera approaches the floor from below without ever reaching it). -/
theorem camera_height_clamp_preserved_by_lerp
    (cam modelPos fwd m : Vec3) (delta : ℝ)
    (hcam : MIN_CAMERA_HEIGHT ≤ cam.y) (hd : 0 ≤ delta) :
    MIN_CAMERA_HEIGHT ≤ (cameraFrame cam modelPos fwd delta).y ∧
    (-1 ≤ m.y → MIN_CAMERA_HEIGHT ≤ (snapCamera m).y) := by
  constructor
  · have hf := lerpFactor_mem delta hd
    have hdes : MIN_CAMERA_HEIGHT ≤ (desiredCameraPos modelPos fwd).y := by
      simp only [desiredCameraPos]
      split
      · exact le_refl _
      · linarith [not_lt.mp (by assumption)]
    simp only [cameraFrame, lerpVec]
    nlinarith [hf.1, hf.2, hdes, hcam]
  · intro hm
    simp only [snapCamera, MIN_CAMERA_HEIGHT]
    linarith

/-- Witness for C7 amended: camera at height 3, delta 0, queen-height
model. -/
theorem camera_height_clamp_preserved_witness :
    MIN_CAMERA_HEIGHT ≤ (Vec3.mk 0 3 0).y ∧
    (MIN_CAMERA_HEIGHT ≤
        (cameraFrame (Vec3.mk 0 3 0) (Vec3.mk 0 0 0) (Vec3.mk 0 0 1) 0).y ∧
     (-1 ≤ (Vec3.mk 0 0 0).y →
        MIN_CAMERA_HEIGHT ≤ (snapCamera (Vec3.mk 0 0 0)).y)) :=
  ⟨by norm_num [MIN_CAMERA_HEIGHT],
   camera_height_clamp_preserved_by_lerp (Vec3.mk 0 3 0) (Vec3.mk 0 0 0)
     (Vec3.mk 0 0 1) (Vec3.mk 0 0 0) 0
     (by norm_num [MIN_CAMERA_HEIGHT]) (by norm_num)⟩

/-- The flattened, normalized camera direction is a unit vector whenever
the camera's world direction has a nonzero horizontal component. -/
theorem lengthSq_flattenNormalize (cam : Vec3)
    (hc : 0 < cam.x ^ 2 + cam.z ^ 2) :
    (flattenNormalize cam).lengthSq = 1 := by
  have harg : (0 : ℝ) ≤ cam.x ^ 2 + 0 ^ 2 + cam.z ^ 2 := by positivity
  have hpos : (0 : ℝ) < cam.x ^ 2 + 0 ^ 2 + cam.z ^ 2 := by
    nlinarith
  have hlen : Real.sqrt (cam.x ^ 2 + 0 ^ 2 + cam.z ^ 2) ≠ 0 := by
    exact ne_of_gt (Real.sqrt_pos.mpr hpos)
  have hsq : Real.sqrt (cam.x ^ 2 + 0 ^ 2 + cam.z ^ 2) ^ 2 =
      cam.x ^ 2 + 0 ^ 2 + cam.z ^ 2 := Real.sq_sqrt harg
  simp only [flattenNormalize, Vec3.normalize, Vec3.length, Vec3.lengthSq,
    if_neg hlen]
  field_simp

/-- Fact `Math.atan2(0, 1) = 0`: the rotation-smoothing step is a no-op when
the current yaw already equals the target yaw. -/
theorem atan2_zero_one : atan2 0 1 = 0 := by
  unfold atan2
  rw [if_pos one_pos]
  norm_num

/-- One movement frame with only `w` held, starting with the yaw already at
the target yaw and a camera direction with nonzero horizontal component:
the rotation is unchanged, the character steps by `moveSpeed` along its own
yaw-forward `(sin rotY, 0, cos rotY)`, `position.y` is pinned to the floor
constant, and `isMoving` becomes true. -/
theorem frameUpdate_w (q : Bool) (cam : Vec3)
    (hc : 0 < cam.x ^ 2 + cam.z ^ 2) (st : CharState)
    (hr : st.targetRot = st.rotY) :
    frameUpdate q cam keysW st =
      (CharState.mk
        (Vec3.mk (st.pos.x + Real.sin st.rotY * moveSpeed) (floorY q)
          (st.pos.z + Real.cos st.rotY * moveSpeed))
        st.rotY st.rotY true,
       true != st.isMoving) := by
  have h := lengthSq_flattenNormalize cam hc
  have hmd : (moveDir (flattenNormalize cam)
      (Keys.mk true false false false)).lengthSq = 1 := by
    simp only [moveDir, Vec3.lengthSq] at h ⊢
    simpa using h
  simp only [frameUpdate, keysW, hr]
  norm_num [hmd, atan2_zero_one]

/-- Iterating the movement update with only `w` held and the yaw at its
target: after `n + 1` frames the character has advanced `(n+1) * moveSpeed`
along its (constant) yaw-forward direction, its `y` is pinned to the floor
constant, the yaw is unchanged and `isMoving` is true. -/
theorem runFrames_w (q : Bool) (cam : Vec3)
    (hc : 0 < cam.x ^ 2 + cam.z ^ 2) :
    ∀ (n : Nat) (st : CharState), st.targetRot = st.rotY →
      runFrames q cam keysW (n + 1) st =
        CharState.mk
          (Vec3.mk (st.pos.x + (n + 1 : ℝ) * (Real.sin st.rotY * moveSpeed))
            (floorY q)
            (st.pos.z + (n + 1 : ℝ) * (Real.cos st.rotY * moveSpeed)))
          st.rotY st.rotY true := by
  intro n
  induction n with
  | zero =>
      intro st hr
      have h0 : runFrames q cam keysW (0 + 1) st =
          runFrames q cam keysW 0 (frameUpdate q cam keysW st).1 := rfl
      rw [h0, frameUpdate_w q cam hc st hr]
      show CharState.mk _ _ _ _ = _
      norm_num
  | succ n ih =>
      intro st hr
      have h0 : runFrames q cam keysW (n + 1 + 1) st =
          runFrames q cam keysW (n + 1) (frameUpdate q cam keysW st).1 := rfl
      rw [h0, frameUpdate_w q cam hc st hr, ih _ rfl]
      simp only [CharState.mk.injEq, Vec3.mk.injEq, and_true, true_and]
      constructor <;> (push_cast; ring)

/-- C9: after each frame's movement update, `isMoving` is exactly the OR
of the held states of `w`, `s`, `a`, `d`; consequently it is false exactly
when all four are released.  The trailing `setIsMoving(currentlyMoving)`
call is made every frame, but (by React's same-value bailout, modelled in
the second component of `frameUpdate`) it changes the shared state — and
triggers downstream re-evaluation — exactly when the value differs from
the previous one. -/
theorem isMoving_or_of_keys_and_writeback_on_change
    (q : Bool) (cam : Vec3) (k : Keys) (st : CharState) :
    (frameUpdate q cam k st).1.isMoving = (k.w || k.s || k.a || k.d) ∧
    (frameUpdate q cam k st).2 = ((k.w || k.s || k.a || k.d) != st.isMoving) ∧
    ((frameUpdate q cam k st).1.isMoving = false ↔
      (k.w = false ∧ k.s = false ∧ k.a = false ∧ k.d = false)) := by
  refine ⟨rfl, rfl, ?_⟩
  rw [show (frameUpdate q cam k st).1.isMoving =
        (k.w || k.s || k.a || k.d) from rfl]
  obtain ⟨w, s, a, d⟩ := k
  cases w <;> cases s <;> cases a <;> cases d <;> decide

/-- The position part of a movement frame when the accumulated
`moveDirection` has positive squared length: step by `moveSpeed` along the
character's updated yaw-forward, pin `y` to the floor constant. -/
theorem frameUpdate_pos_of_moving (q : Bool) (cam : Vec3) (k : Keys)
    (st : CharState)
    (h : 0 < (moveDir (flattenNormalize cam) k).lengthSq) :
    (frameUpdate q cam k st).1.pos =
      Vec3.mk
        (st.pos.x + Real.sin ((frameUpdate q cam k st).1.rotY) * moveSpeed)
        (floorY q)
        (st.pos.z + Real.cos ((frameUpdate q cam k st).1.rotY) * moveSpeed) := by
  simp only [frameUpdate]
  rw [if_pos h]

/-- The position part of a movement frame when the accumulated
`moveDirection` is the zero vector: the position is untouched (in
particular `y` is not reset). -/
theorem frameUpdate_pos_of_still (q : Bool) (cam : Vec3) (k : Keys)
    (st : CharState)
    (h : ¬ 0 < (moveDir (flattenNormalize cam) k).lengthSq) :
    (frameUpdate q cam k st).1.pos = st.pos := by
  simp only [frameUpdate]
  rw [if_neg h]

/-- The rotation update of a movement frame depends only on the `a`/`d`
keys, not on `w`/`s`. -/
theorem frameUpdate_rotY_of_turn_keys (q : Bool) (cam : Vec3)
    (k k2 : Keys) (st : CharState) (ha : k.a = k2.a) (hd : k.d = k2.d) :
    (frameUpdate q cam k st).1.rotY = (frameUpdate q cam k2 st).1.rotY := by
  simp only [frameUpdate]
  rw [ha, hd]

/-- C10 counterexample: with the camera looking straight down (world
direction `(0, -1, 0)`), its flattened direction is the zero vector, which
three.js `normalize` leaves unchanged; holding only `w` then accumulates a
zero `moveDirection`, so the frame moves the character by nothing — not by
`moveSpeed` along `(sin rotY, 0, cos rotY)` — and `y` (here 5) is not
reset to the floor constant. -/
theorem w_only_vertical_camera_no_motion :
    (frameUpdate false (Vec3.mk 0 (-1) 0) keysW
        (CharState.mk (Vec3.mk 0 5 0) 0 0 false)).1.pos = Vec3.mk 0 5 0 ∧
    ¬ ((frameUpdate false (Vec3.mk 0 (-1) 0) keysW
          (CharState.mk (Vec3.mk 0 5 0) 0 0 false)).1.pos.z =
        (0 : ℝ) +
          Real.cos ((frameUpdate false (Vec3.mk 0 (-1) 0) keysW
            (CharState.mk (Vec3.mk 0 5 0) 0 0 false)).1.rotY) * moveSpeed) ∧
    (frameUpdate false (Vec3.mk 0 (-1) 0) keysW
        (CharState.mk (Vec3.mk 0 5 0) 0 0 false)).1.pos.y ≠ floorY false := by
  have hflat : flattenNormalize (Vec3.mk 0 (-1) 0) = Vec3.mk 0 0 0 := by
    simp only [flattenNormalize, Vec3.normalize, Vec3.length]
    norm_num
  have hmd : moveDir (flattenNormalize (Vec3.mk 0 (-1) 0)) keysW =
      Vec3.mk 0 0 0 := by
    rw [hflat]
    simp [moveDir, keysW]
  have hzero : ¬ 0 < (moveDir (flattenNormalize (Vec3.mk 0 (-1) 0))
      keysW).lengthSq := by
    rw [hmd]
    norm_num [Vec3.lengthSq]
  have hpos := frameUpdate_pos_of_still false (Vec3.mk 0 (-1) 0) keysW
    (CharState.mk (Vec3.mk 0 5 0) 0 0 false) hzero
  have hry : (frameUpdate false (Vec3.mk 0 (-1) 0) keysW
      (CharState.mk (Vec3.mk 0 5 0) 0 0 false)).1.rotY = 0 := by
    simp only [frameUpdate, keysW]
    norm_num [atan2_zero_one]
  refine ⟨hpos, ?_, ?_⟩
  · rw [hpos, hry]
    norm_num [moveSpeed]
  · rw [hpos]
    norm_num [floorY]

/-- C10 amended: provided the camera's world direction has a nonzero
horizontal component, a frame holding exactly one of `w`/`s` (with any
`a`/`d` state) displaces the character by `moveSpeed` times the unit
vector `(sin rotY, 0, cos rotY)` derived from the character's own
(updated) yaw — identically for `w` and for `s`, since the accumulated
`moveDirection` is only tested for nonzero length — and pins `y` to the
model floor constant; when `w` and `s` are both held the contributions
cancel exactly, the position is unchanged, yet `isMoving` is still set
true. -/
theorem ws_symmetric_yaw_forward_step (q : Bool) (cam : Vec3)
    (ka kd : Bool) (st : CharState)
    (hc : 0 < cam.x ^ 2 + cam.z ^ 2) :
    ((frameUpdate q cam (Keys.mk true false ka kd) st).1.pos =
      Vec3.mk
        (st.pos.x + Real.sin ((frameUpdate q cam (Keys.mk true false ka kd) st).1.rotY) * moveSpeed)
        (floorY q)
        (st.pos.z + Real.cos ((frameUpdate q cam (Keys.mk true false ka kd) st).1.rotY) * moveSpeed)) ∧
    (frameUpdate q cam (Keys.mk false true ka kd) st).1.pos =
      (frameUpdate q cam (Keys.mk true false ka kd) st).1.pos ∧
    (frameUpdate q cam (Keys.mk true true ka kd) st).1.pos = st.pos ∧
    (frameUpdate q cam (Keys.mk true true ka kd) st).1.isMoving = true := by
  have hcd := lengthSq_flattenNormalize cam hc
  have hw : 0 < (moveDir (flattenNormalize cam)
      (Keys.mk true false ka kd)).lengthSq := by
    have hmd : moveDir (flattenNormalize cam) (Keys.mk true false ka kd) =
        flattenNormalize cam := by
      simp [moveDir]
    rw [hmd, hcd]
    norm_num
  have hs : 0 < (moveDir (flattenNormalize cam)
      (Keys.mk false true ka kd)).lengthSq := by
    have hmd : (moveDir (flattenNormalize cam)
        (Keys.mk false true ka kd)).lengthSq =
        (flattenNormalize cam).lengthSq := by
      simp only [moveDir, Vec3.lengthSq]
      norm_num
    rw [hmd, hcd]
    norm_num
  have hws : ¬ 0 < (moveDir (flattenNormalize cam)
      (Keys.mk true true ka kd)).lengthSq := by
    have hmd : (moveDir (flattenNormalize cam)
        (Keys.mk true true ka kd)).lengthSq = 0 := by
      simp only [moveDir, Vec3.lengthSq]
      norm_num
    rw [hmd]
    norm_num
  refine ⟨frameUpdate_pos_of_moving q cam _ st hw, ?_,
    frameUpdate_pos_of_still q cam _ st hws, rfl⟩
  rw [frameUpdate_pos_of_moving q cam _ st hw,
    frameUpdate_pos_of_moving q cam _ st hs,
    frameUpdate_rotY_of_turn_keys q cam (Keys.mk false true ka kd)
      (Keys.mk true false ka kd) st rfl rfl]

/-- Witness for C10 amended at a concrete camera and state. -/
theorem ws_symmetric_yaw_forward_step_witness :
    (0 : ℝ) < (Vec3.mk 1 0 0).x ^ 2 + (Vec3.mk 1 0 0).z ^ 2 ∧
    (((frameUpdate false (Vec3.mk 1 0 0) (Keys.mk true false false false)
          (CharState.mk (Vec3.mk 0 0 0) 0 0 false)).1.pos =
        Vec3.mk
          ((CharState.mk (Vec3.mk 0 0 0) 0 0 false).pos.x +
            Real.sin ((frameUpdate false (Vec3.mk 1 0 0) (Keys.mk true false false false)
              (CharState.mk (Vec3.mk 0 0 0) 0 0 false)).1.rotY) * moveSpeed)
          (floorY false)
          ((CharState.mk (Vec3.mk 0 0 0) 0 0 false).pos.z +
            Real.cos ((frameUpdate false (Vec3.mk 1 0 0) (Keys.mk true false false false)
              (CharState.mk (Vec3.mk 0 0 0) 0 0 false)).1.rotY) * moveSpeed)) ∧
     (frameUpdate false (Vec3.mk 1 0 0) (Keys.mk false true false false)
         (CharState.mk (Vec3.mk 0 0 0) 0 0 false)).1.pos =
       (frameUpdate false (Vec3.mk 1 0 0) (Keys.mk true false false false)
         (CharState.mk (Vec3.mk 0 0 0) 0 0 false)).1.pos ∧
     (frameUpdate false (Vec3.mk 1 0 0) (Keys.mk true true false false)
         (CharState.mk (Vec3.mk 0 0 0) 0 0 false)).1.pos =
       (CharState.mk (Vec3.mk 0 0 0) 0 0 false).pos ∧
     (frameUpdate false (Vec3.mk 1 0 0) (Keys.mk true true false false)
         (CharState.mk (Vec3.mk 0 0 0) 0 0 false)).1.isMoving = true) :=
  ⟨by norm_num,
   ws_symmetric_yaw_forward_step false (Vec3.mk 1 0 0) false false
     (CharState.mk (Vec3.mk 0 0 0) 0 0 false) (by norm_num)⟩

/-- C4 counterexample: camera world direction `(1, 0, 0)` (already flat
and unit), character at rest at the origin with yaw 0.  Ten `w`-frames
leave `position.x` at 0 — the character walks along its own yaw-forward
`(sin 0, 0, cos 0) = (0, 0, 1)` — whereas the claim's camera-forward
displacement `10 × moveSpeed × (1, 0, 0)` would require
`position.x = 0.5`. -/
theorem ten_w_frames_not_camera_forward :
    ¬ ((runFrames false (Vec3.mk 1 0 0) keysW 10
          (CharState.mk (Vec3.mk 0 0 0) 0 0 false)).pos.x =
        (0 : ℝ) + 10 * moveSpeed * (flattenNormalize (Vec3.mk 1 0 0)).x) := by
  have h10 := runFrames_w false (Vec3.mk 1 0 0) (by norm_num) 9
    (CharState.mk (Vec3.mk 0 0 0) 0 0 false) rfl
  have hfx : (flattenNormalize (Vec3.mk 1 0 0)).x = 1 := by
    simp only [flattenNormalize, Vec3.normalize, Vec3.length]
    norm_num
  norm_num at h10
  rw [h10, hfx]
  norm_num [moveSpeed]

/-- C4 amended: with the camera's world direction having a nonzero
horizontal component and the character starting at rest (yaw equal to its
target yaw), holding only `w` for 10 frames displaces the character by
`10 × moveSpeed` along its own yaw-forward direction
`(sin rotY, 0, cos rotY)` — not the camera-forward direction — with `y`
pinned to the default floor constant; `isMoving` is true after every one of
the frames; and a single evaluation of the animation effect with
isMoving true, a Move clip bound and no pending one-shot requests makes
Move the current action. -/
theorem ten_w_frames_move_along_character_yaw
    (cam : Vec3) (st : CharState) (b : Bindings) (s : AnimState) (n : Nat)
    (hc : 0 < cam.x ^ 2 + cam.z ^ 2) (hr : st.targetRot = st.rotY)
    (hbm : b.move = true) (hra : s.attackRequested = false)
    (hre : s.emoteRequested = false) :
    runFrames false cam keysW 10 st =
      CharState.mk
        (Vec3.mk (st.pos.x + 10 * (Real.sin st.rotY * moveSpeed))
          (floorY false)
          (st.pos.z + 10 * (Real.cos st.rotY * moveSpeed)))
        st.rotY st.rotY true ∧
    (runFrames false cam keysW (n + 1) st).isMoving = true ∧
    (evalAnim b true s).1.currentAction = some ClipRole.move := by
  refine ⟨?_, ?_, ?_⟩
  · have h10 := runFrames_w false cam hc 9 st hr
    norm_num at h10
    exact h10
  · rw [runFrames_w false cam hc n st hr]
  · have hstep : evalAnim b true s = idleMoveStep b true s := by
      simp [evalAnim, hra, hre]
    rw [hstep]
    unfold idleMoveStep
    simp only [selectTarget, hbm]
    by_cases hcurm : s.currentAction = some ClipRole.move
    · simp [hcurm]
    · cases hcur2 : s.currentAction with
      | none => simp [hcurm, hcur2]
      | some c =>
          have hcm : ¬c = ClipRole.move := by
            rw [hcur2] at hcurm
            simpa using hcurm
          simp [hcurm, hcur2, hcm]

/-- Witness for C4 amended: camera direction `(1, 0, 0)`, character at the
origin at rest, all clips bound, clean animation state. -/
theorem ten_w_frames_move_along_character_yaw_witness :
    (0 : ℝ) < (Vec3.mk 1 0 0).x ^ 2 + (Vec3.mk 1 0 0).z ^ 2 ∧
    (runFrames false (Vec3.mk 1 0 0) keysW 10
        (CharState.mk (Vec3.mk 0 0 0) 0 0 false) =
      CharState.mk
        (Vec3.mk ((CharState.mk (Vec3.mk 0 0 0) 0 0 false).pos.x +
            10 * (Real.sin (CharState.mk (Vec3.mk 0 0 0) 0 0 false).rotY * moveSpeed))
          (floorY false)
          ((CharState.mk (Vec3.mk 0 0 0) 0 0 false).pos.z +
            10 * (Real.cos (CharState.mk (Vec3.mk 0 0 0) 0 0 false).rotY * moveSpeed)))
        (CharState.mk (Vec3.mk 0 0 0) 0 0 false).rotY
        (CharState.mk (Vec3.mk 0 0 0) 0 0 false).rotY true ∧
     (runFrames false (Vec3.mk 1 0 0) keysW (0 + 1)
        (CharState.mk (Vec3.mk 0 0 0) 0 0 false)).isMoving = true ∧
     (evalAnim (Bindings.mk true true true true) true
        (AnimState.mk false false false false none 0 false false)).1.currentAction =
       some ClipRole.move) :=
  ⟨by norm_num,
   ten_w_frames_move_along_character_yaw (Vec3.mk 1 0 0)
     (CharState.mk (Vec3.mk 0 0 0) 0 0 false)
     (Bindings.mk true true true true)
     (AnimState.mk false false false false none 0 false false) 0
     (by norm_num) rfl rfl rfl rfl⟩

end KungFuChess
